import Mathlib

/-!
Shallow embedding of `src/server.js` (LisaBackend): an in-memory user CRUD
service. JavaScript values appearing in request payloads and stored records
are modelled by `JVal` (undefined, null, string, integer number, boolean);
JSON composite values (arrays, objects) are out of scope of the claims and
omitted. JS truthiness, `String.prototype.trim`, `String.prototype.includes`
and `parseInt` are embedded explicitly; calling `.trim()`/`.includes()` on a
non-string throws a TypeError, modelled by `Except`. The store `users` is a
JS object keyed by id, modelled as an insertion-ordered association list.
Each HTTP handler becomes a pure function from the store (plus the request
data and the environment: fresh id, current timestamp) to a response and the
new store; an exception escaping a handler is answered by the error
middleware with 500, leaving the store unchanged.
-/

namespace LisaBackend

/-- A JavaScript value as it can occur in a parsed JSON body or in a stored
user field. `undef` stands for an absent field (JSON cannot encode
`undefined`, so absent key and `undefined` coincide for parsed bodies). -/
inductive JVal where
  | undef
  | null
  | str (s : String)
  | num (n : Int)
  | bool (b : Bool)
deriving DecidableEq

/-- JS truthiness: `undefined`, `null`, `""`, `0` and `false` are falsy. -/
def jsTruthy : JVal → Bool
  | .undef => false
  | .null => false
  | .str s => s != ""
  | .num n => n != 0
  | .bool b => b

/-- JS whitespace for `trim`/`parseInt` purposes. -/
def isWs (c : Char) : Bool :=
  c == ' ' || c == '\t' || c == '\n' || c == '\r' || c == '\x0b' || c == '\x0c'

/-- Remove leading and trailing whitespace from a character list. -/
def trimChars (l : List Char) : List Char :=
  ((l.dropWhile isWs).reverse.dropWhile isWs).reverse

/-- `s.trim()` on a string. -/
def jsTrimStr (s : String) : String :=
  String.mk (trimChars s.data)

/-- `v.trim()`: defined on strings; a TypeError on anything else. -/
def jsTrim : JVal → Except String String
  | .str s => .ok (jsTrimStr s)
  | _ => .error "TypeError"

/-- `s.includes(c)` on a string. -/
def jsContainsChar (s : String) (c : Char) : Bool :=
  s.data.any (fun x => x == c)

/-- `v.includes(c)`: defined on strings; a TypeError on anything else. -/
def jsIncludes (v : JVal) (c : Char) : Except String Bool :=
  match v with
  | .str s => .ok (jsContainsChar s c)
  | _ => .error "TypeError"

/-- Value of a run of decimal digit characters. -/
def digitsToNat (l : List Char) : Nat :=
  l.foldl (fun acc c => acc * 10 + (c.toNat - 48)) 0

/-- `parseInt` on a string (decimal, no radix argument): skip surrounding
whitespace, optional sign, then the leading run of decimal digits; `none`
models NaN (no digit found). -/
def parseIntStr (s : String) : Option Int :=
  let t := trimChars s.data
  let signCore : Bool × List Char :=
    match t with
    | '-' :: rest => (true, rest)
    | '+' :: rest => (false, rest)
    | _ => (false, t)
  let digits := signCore.2.takeWhile Char.isDigit
  if digits.isEmpty then none
  else some (if signCore.1 then -(digitsToNat digits : Int) else (digitsToNat digits : Int))

/-- `parseInt(data.age)`: JS coerces the argument to a string and parses.
`String` of an integer Number is its decimal numeral, which parses back to
the same integer; `"undefined"`, `"null"`, `"true"`, `"false"` hold no
leading digits, so those coercions give NaN. -/
def jsParseInt : JVal → Option Int
  | .undef => none
  | .null => none
  | .str s => parseIntStr s
  | .num n => some n
  | .bool _ => none

/-- The age test of the validator: `isNaN(age) || age < 0` after
`age = parseInt(data.age)`. -/
def ageInvalid (v : JVal) : Bool :=
  match jsParseInt v with
  | none => true
  | some n => decide (n < 0)

/-- A request body as parsed by `express.json()`: the three fields the code
reads (`undef` meaning absent) plus a flag recording whether the JSON object
carried any further keys (they only matter for `Object.keys(data).length`). -/
structure Payload where
  name : JVal
  email : JVal
  age : JVal
  extra : Bool
deriving DecidableEq

/-- `Object.keys(data).length === 0` is false, i.e. the body object has at
least one key. -/
def Payload.hasKeys (d : Payload) : Bool :=
  d.name != JVal.undef || d.email != JVal.undef || d.age != JVal.undef || d.extra

/-- A stored user record (the `User` class). `id`, `created_at` and
`updated_at` are strings (uuid, ISO timestamps); `name`, `email` and `age`
hold whatever value the mutation stored. -/
structure User where
  id : String
  name : JVal
  email : JVal
  age : JVal
  created_at : String
  updated_at : String
deriving DecidableEq

/-- The `users` object: insertion-ordered association list keyed by id. -/
abbrev Store := List (String × User)

/-- `users[userId]` lookup. -/
def findUser (store : Store) (userId : String) : Option User :=
  match store.find? (fun p => p.1 == userId) with
  | none => none
  | some p => some p.2

/-- `users[k] = u`: overwrite in place if the key exists, else append. -/
def objAssign (store : Store) (k : String) (u : User) : Store :=
  if store.any (fun p => p.1 == k) then
    store.map (fun p => if p.1 == k then (k, u) else p)
  else store ++ [(k, u)]

/-- The name branch chain of `validateUserData`, pushing onto the running
`errors` array: `if (requireAll && !data.name) push; else if (data.name &&
!data.name.trim()) push` — where `.trim()` on a truthy non-string throws. -/
def nameStep (errors : List String) (data : Payload) (requireAll : Bool) :
    Except String (List String) :=
  if requireAll && !jsTruthy data.name then .ok (errors ++ ["Name is required"])
  else if jsTruthy data.name then
    match jsTrim data.name with
    | .error e => .error e
    | .ok t => if t == "" then .ok (errors ++ ["Name cannot be empty"]) else .ok errors
  else .ok errors

/-- The email branch chain of `validateUserData`, pushing onto the running
`errors` array: required / cannot-be-empty / must-contain-`@`. -/
def emailStep (errors : List String) (data : Payload) (requireAll : Bool) :
    Except String (List String) :=
  if requireAll && !jsTruthy data.email then .ok (errors ++ ["Email is required"])
  else if jsTruthy data.email then
    match jsTrim data.email with
    | .error e => .error e
    | .ok t =>
      if t == "" then .ok (errors ++ ["Email cannot be empty"])
      else
        match jsIncludes data.email '@' with
        | .error e => .error e
        | .ok b => if !b then .ok (errors ++ ["Invalid email format"]) else .ok errors
  else .ok errors

/-- The age check of `validateUserData`, pushing onto the running `errors`
array; `parseInt` never throws. -/
def ageStep (errors : List String) (data : Payload) : List String :=
  if data.age != JVal.undef && data.age != JVal.null then
    if ageInvalid data.age then errors ++ ["Age must be a positive number"] else errors
  else errors

/-- `validateUserData(data, requireAll)`. Returns the collected error list,
or a thrown TypeError (when `.trim()` is reached on a truthy non-string).
The running `errors` array starts empty and is threaded through the name
branch chain, the email branch chain, and the age check, in source order. -/
def validateUserData (data : Payload) (requireAll : Bool) : Except String (List String) :=
  match nameStep [] data requireAll with
  | .error e => .error e
  | .ok errors =>
    match emailStep errors data requireAll with
    | .error e => .error e
    | .ok errors => .ok (ageStep errors data)

/-- The name branch chain of the validator, in isolation. -/
def nameCheck (data : Payload) (requireAll : Bool) : Except String (List String) :=
  if requireAll && !jsTruthy data.name then .ok ["Name is required"]
  else if jsTruthy data.name then
    match jsTrim data.name with
    | .error e => .error e
    | .ok t => if t == "" then .ok ["Name cannot be empty"] else .ok []
  else .ok []

/-- The email branch chain of the validator, in isolation. -/
def emailCheck (data : Payload) (requireAll : Bool) : Except String (List String) :=
  if requireAll && !jsTruthy data.email then .ok ["Email is required"]
  else if jsTruthy data.email then
    match jsTrim data.email with
    | .error e => .error e
    | .ok t =>
      if t == "" then .ok ["Email cannot be empty"]
      else
        match jsIncludes data.email '@' with
        | .error e => .error e
        | .ok b => if !b then .ok ["Invalid email format"] else .ok []
  else .ok []

/-- The age check of the validator, in isolation (it never throws). -/
def ageErrors (data : Payload) : List String :=
  if data.age != JVal.undef && data.age != JVal.null then
    if ageInvalid data.age then ["Age must be a positive number"] else []
  else []

instance {ε α : Type} [DecidableEq ε] [DecidableEq α] : DecidableEq (Except ε α) := fun a b =>
  match a, b with
  | .error e, .error f =>
    if h : e = f then isTrue (by rw [h]) else isFalse (by intro hc; cases hc; exact h rfl)
  | .error _, .ok _ => isFalse (by intro hc; cases hc)
  | .ok _, .error _ => isFalse (by intro hc; cases hc)
  | .ok x, .ok y =>
    if h : x = y then isTrue (by rw [h]) else isFalse (by intro hc; cases hc; exact h rfl)

/-- A JSON response body. -/
inductive Body where
  | user (u : User)
  | userList (l : List User)
  | errObj (s : String)
  | errList (es : List String)
  | message (s : String)
deriving DecidableEq

/-- An HTTP response: status code and JSON body. -/
structure Resp where
  status : Nat
  body : Body
deriving DecidableEq

/-- The error middleware answer for an exception escaping a handler. -/
def resp500 : Resp :=
  ⟨500, .errObj "Internal server error"⟩

/-- `User.update(name, email, age)`: JS default parameters turn an
`undefined` argument into `null`; each non-null argument overwrites its
field; `updated_at` is refreshed. -/
def User.update (u : User) (name email age : JVal) (now : String) : User :=
  let name := if name == JVal.undef then JVal.null else name
  let email := if email == JVal.undef then JVal.null else email
  let age := if age == JVal.undef then JVal.null else age
  { u with
    name := if name != JVal.null then name else u.name,
    email := if email != JVal.null then email else u.email,
    age := if age != JVal.null then age else u.age,
    updated_at := now }

/-- Handler for POST /users. `freshId` is the uuid generated for this
request and `now` the current ISO timestamp. -/
def postUsers (store : Store) (data : Payload) (freshId now : String) : Resp × Store :=
  if !data.hasKeys then (⟨400, .errObj "No data provided"⟩, store)
  else
    match validateUserData data true with
    | .error _ => (resp500, store)
    | .ok errors =>
      if errors.length > 0 then (⟨400, .errList errors⟩, store)
      else if store.any (fun p => p.2.email == data.email) then
        (⟨409, .errObj "Email already exists"⟩, store)
      else
        let user : User :=
          { id := freshId, name := data.name, email := data.email,
            age := if data.age == JVal.undef then JVal.null else data.age,
            created_at := now, updated_at := now }
        (⟨201, .user user⟩, objAssign store freshId user)

/-- Handler for PUT /users/:userId. -/
def putUser (store : Store) (userId : String) (data : Payload) (now : String) : Resp × Store :=
  match findUser store userId with
  | none => (⟨404, .errObj "User not found"⟩, store)
  | some user =>
    if !data.hasKeys then (⟨400, .errObj "No data provided"⟩, store)
    else
      match validateUserData data false with
      | .error _ => (resp500, store)
      | .ok errors =>
        if errors.length > 0 then (⟨400, .errList errors⟩, store)
        else if jsTruthy data.email &&
            store.any (fun p => p.1 != userId && p.2.email == data.email) then
          (⟨409, .errObj "Email already exists"⟩, store)
        else
          let updated := User.update user data.name data.email data.age now
          (⟨200, .user updated⟩,
            store.map (fun p => if p.1 == userId then (p.1, updated) else p))

/-- Handler for DELETE /users/:userId. -/
def deleteUser (store : Store) (userId : String) : Resp × Store :=
  match findUser store userId with
  | none => (⟨404, .errObj "User not found"⟩, store)
  | some _ =>
    (⟨200, .message "User deleted successfully"⟩,
      store.filter (fun p => p.1 != userId))

/-- Handler for GET /users/:userId. -/
def getUser (store : Store) (userId : String) : Resp :=
  match findUser store userId with
  | none => ⟨404, .errObj "User not found"⟩
  | some user => ⟨200, .user user⟩

/-- The validator reassembled from the three independent per-field checks:
name errors, then email errors, then age errors, concatenated (a thrown
TypeError from an earlier field pre-empts later fields). Equality with
`validateUserData` states that the checks run independently and that every
resulting message is collected. -/
def validateCombined (data : Payload) (requireAll : Bool) : Except String (List String) :=
  match nameCheck data requireAll with
  | .error e => .error e
  | .ok n =>
    match emailCheck data requireAll with
    | .error e => .error e
    | .ok es => .ok (n ++ es ++ ageErrors data)

/-- A truthy value that is not a string: exactly the values on which the
validator reaches `.trim()` and throws a TypeError. -/
def truthyNonString : JVal → Bool
  | .str _ => false
  | v => jsTruthy v

/-- Test fixture: a stored user named Bo. -/
def userBo : User :=
  ⟨"u1", .str "Bo", .str "bo@x.com", .null, "t0", "t0"⟩

/-- Test fixture: a stored user named Cy. -/
def userCy : User :=
  ⟨"u2", .str "Cy", .str "cy@x.com", .null, "t0", "t0"⟩

/-- Test fixture: a PUT body carrying only an empty-string name. -/
def emptyNamePayload : Payload :=
  ⟨.str "", .undef, .undef, false⟩

/-- Test fixture: a PUT body carrying only an empty-string email. -/
def emptyEmailPayload : Payload :=
  ⟨.undef, .str "", .undef, false⟩

/-- Test fixture: the POST body of the age-zero scenario. -/
def annPayload : Payload :=
  ⟨.str "Ann", .str "ann@x.com", .num 0, false⟩

/-- Test fixture: a PUT body carrying only age 5. -/
def age5Payload : Payload :=
  ⟨.undef, .undef, .num 5, false⟩

/-! ## Helper lemmas -/

/-- The name branch chain appends exactly the independent name errors to the
running array. -/
theorem nameStep_eq (errors : List String) (data : Payload) (r : Bool) :
    nameStep errors data r = (nameCheck data r).map (fun l => errors ++ l) := by
  unfold nameStep nameCheck
  cases h : data.name <;> cases r <;>
    simp [jsTruthy, jsTrim, Except.map] <;>
    split_ifs <;> simp

/-- The email branch chain appends exactly the independent email errors to
the running array. -/
theorem emailStep_eq (errors : List String) (data : Payload) (r : Bool) :
    emailStep errors data r = (emailCheck data r).map (fun l => errors ++ l) := by
  unfold emailStep emailCheck
  cases h : data.email <;> cases r <;>
    simp [jsTruthy, jsTrim, jsIncludes, Except.map] <;>
    split_ifs <;> simp

/-- The age check appends exactly the independent age errors to the running
array. -/
theorem ageStep_eq (errors : List String) (data : Payload) :
    ageStep errors data = errors ++ ageErrors data := by
  unfold ageStep ageErrors
  split_ifs <;> simp

/-- The validator equals the concatenation of its three independent
per-field checks. -/
theorem validateUserData_eq_combined (data : Payload) (r : Bool) :
    validateUserData data r = validateCombined data r := by
  unfold validateUserData validateCombined
  rw [nameStep_eq]
  cases nameCheck data r with
  | error e => rfl
  | ok n =>
    simp only [Except.map]
    rw [emailStep_eq]
    cases emailCheck data r with
    | error e => rfl
    | ok es => simp [Except.map, ageStep_eq]

/-- Inversion: a returned error list splits into name, email and age parts. -/
theorem validate_ok_iff (data : Payload) (r : Bool) (es : List String) :
    validateUserData data r = .ok es ↔
      ∃ n e, nameCheck data r = .ok n ∧ emailCheck data r = .ok e ∧
        es = n ++ e ++ ageErrors data := by
  rw [validateUserData_eq_combined]
  unfold validateCombined
  cases hn : nameCheck data r <;> cases he : emailCheck data r <;> simp
  constructor
  · intro h; exact h.symm
  · intro h; exact h.symm

/-- The name check only ever produces its two name messages. -/
theorem nameCheck_ok_values (data : Payload) (r : Bool) (n : List String)
    (h : nameCheck data r = .ok n) :
    n = [] ∨ n = ["Name is required"] ∨ n = ["Name cannot be empty"] := by
  unfold nameCheck at h
  split_ifs at h <;> (try split at h) <;> (try split_ifs at h) <;> simp_all

/-- The email check only ever produces its three email messages. -/
theorem emailCheck_ok_values (data : Payload) (r : Bool) (e : List String)
    (h : emailCheck data r = .ok e) :
    e = [] ∨ e = ["Email is required"] ∨ e = ["Email cannot be empty"] ∨
      e = ["Invalid email format"] := by
  unfold emailCheck at h
  split_ifs at h <;> (try split at h) <;> (try split_ifs at h) <;> (try split at h) <;>
    (try split_ifs at h) <;> simp_all

/-- Claim C1 (code bug): the claim says a stored user's name is never the
empty string after any accepted mutation, but a PUT whose body is only
name = "" on a stored user is accepted with 200 and stores the empty string
as the name: the empty string is falsy, so the non-requireAll validator
skips it, yet it is not null, so User.update writes it. -/
theorem put_accepts_empty_name :
    putUser [("u1", userBo)] "u1" emptyNamePayload "t1" =
      (⟨200, .user { userBo with name := JVal.str "", updated_at := "t1" }⟩,
        [("u1", { userBo with name := JVal.str "", updated_at := "t1" })]) := by decide

/-- Claim C2 (code bug): the claim says no two stored users ever share the
same email string, but PUT with body email = "" skips both validation and
the uniqueness scan (the empty string is falsy), so two accepted PUTs leave
two stored users both holding the email "". -/
theorem put_empty_email_breaks_uniqueness :
    (putUser [("u1", userBo), ("u2", userCy)] "u1" emptyEmailPayload "t1").1.status = 200 ∧
    (putUser (putUser [("u1", userBo), ("u2", userCy)] "u1" emptyEmailPayload "t1").2
        "u2" emptyEmailPayload "t2").1.status = 200 ∧
    (putUser (putUser [("u1", userBo), ("u2", userCy)] "u1" emptyEmailPayload "t1").2
        "u2" emptyEmailPayload "t2").2 =
      [("u1", { userBo with email := JVal.str "", updated_at := "t1" }),
       ("u2", { userCy with email := JVal.str "", updated_at := "t2" })] ∧
    ({ userBo with email := JVal.str "", updated_at := "t1" } : User).email =
      ({ userCy with email := JVal.str "", updated_at := "t2" } : User).email := by decide

/-- Claim C3, counterexample: a payload whose name is the empty string has
name present and trimming to empty, yet neither mode returns the message
about a name that cannot be empty — requireAll answers that the name is
required, the other mode reports nothing. -/
theorem empty_name_no_cannot_be_empty_cex :
    validateUserData ⟨JVal.str "", JVal.str "a@b.c", JVal.undef, false⟩ false = .ok [] ∧
    validateUserData ⟨JVal.str "", JVal.str "a@b.c", JVal.undef, false⟩ true =
      .ok ["Name is required"] := by decide

/-- Claim C8: the validator runs the name, email and age checks
independently and returns all resulting messages concatenated in one list;
in particular a payload missing the name, with an email lacking the at sign
and a negative age yields all three errors in requireAll mode. -/
theorem validator_collects_all_field_errors :
    (∀ (data : Payload) (r : Bool), validateUserData data r = validateCombined data r) ∧
    validateUserData ⟨JVal.undef, JVal.str "x", JVal.num (-1), false⟩ true =
      .ok ["Name is required", "Invalid email format", "Age must be a positive number"] :=
  ⟨validateUserData_eq_combined, by decide⟩

/-- Claim C9: for every id absent from the store and every request body —
the empty body included — PUT answers 404 User not found and leaves the
store unchanged; the not-found check precedes the empty-body and validation
checks. -/
theorem put_unknown_id_not_found (store : Store) (userId : String) (data : Payload)
    (now : String) (h : findUser store userId = none) :
    putUser store userId data now = (⟨404, .errObj "User not found"⟩, store) := by
  unfold putUser
  rw [h]

/-- Witness for C9 at the empty store and an empty body. -/
theorem put_unknown_id_not_found_witness :
    putUser [] "nobody" ⟨JVal.undef, JVal.undef, JVal.undef, false⟩ "t" =
      (⟨404, .errObj "User not found"⟩, []) :=
  put_unknown_id_not_found [] "nobody" ⟨JVal.undef, JVal.undef, JVal.undef, false⟩ "t" (by decide)

/-- Claim C3, amended: in both modes, whenever the validator returns a list
and the name is present as a non-empty string that trims to the empty
string (whitespace-only), the list contains the name-cannot-be-empty
message, and likewise for the email; the empty string itself instead yields
the required-field error in requireAll mode and no error otherwise. -/
theorem whitespace_name_email_yield_cannot_be_empty (data : Payload) (r : Bool)
    (es : List String) (hok : validateUserData data r = .ok es) :
    (∀ s, data.name = JVal.str s → s ≠ "" → jsTrimStr s = "" → "Name cannot be empty" ∈ es) ∧
    (∀ s, data.email = JVal.str s → s ≠ "" → jsTrimStr s = "" → "Email cannot be empty" ∈ es) := by
  rw [validate_ok_iff] at hok
  obtain ⟨n, e, hn, he, hes⟩ := hok
  subst hes
  constructor
  · intro s hs hne htrim
    have hnc : nameCheck data r = .ok ["Name cannot be empty"] := by
      unfold nameCheck
      rw [hs]
      simp [jsTruthy, jsTrim, hne, htrim]
    rw [hnc] at hn
    cases hn
    simp
  · intro s hs hne htrim
    have hec : emailCheck data r = .ok ["Email cannot be empty"] := by
      unfold emailCheck
      rw [hs]
      simp [jsTruthy, jsTrim, hne, htrim]
    rw [hec] at he
    cases he
    simp

/-- Witness for the amended C3 at a payload with whitespace-only name and
email. -/
theorem whitespace_name_email_yield_cannot_be_empty_witness :
    "Name cannot be empty" ∈ (["Name cannot be empty", "Email cannot be empty"] : List String) ∧
    "Email cannot be empty" ∈ (["Name cannot be empty", "Email cannot be empty"] : List String) := by
  have h := whitespace_name_email_yield_cannot_be_empty
    ⟨JVal.str " ", JVal.str " ", JVal.undef, false⟩ false
    ["Name cannot be empty", "Email cannot be empty"] (by decide)
  exact ⟨h.1 " " rfl (by decide) (by decide), h.2 " " rfl (by decide) (by decide)⟩

/-- Claim C6: for every payload whose age is present and non-null, and for
both modes, whenever the validator returns a list, it contains the age
error message if and only if parseInt fails on the age or the parsed value
is negative; otherwise the age passes validation. -/
theorem age_error_iff_parse_fails_or_negative (data : Payload) (r : Bool)
    (es : List String) (h1 : data.age ≠ JVal.undef) (h2 : data.age ≠ JVal.null)
    (hok : validateUserData data r = .ok es) :
    "Age must be a positive number" ∈ es ↔
      (jsParseInt data.age = none ∨ ∃ n, jsParseInt data.age = some n ∧ n < 0) := by
  rw [validate_ok_iff] at hok
  obtain ⟨n, e, hn, he, hes⟩ := hok
  subst hes
  have hmemn : "Age must be a positive number" ∉ n := by
    rcases nameCheck_ok_values data r n hn with h | h | h <;> subst h <;> simp
  have hmeme : "Age must be a positive number" ∉ e := by
    rcases emailCheck_ok_values data r e he with h | h | h | h <;> subst h <;> simp
  have hstep : ("Age must be a positive number" ∈ n ++ e ++ ageErrors data) ↔
      "Age must be a positive number" ∈ ageErrors data := by
    simp [List.mem_append, hmemn, hmeme]
  rw [hstep]
  have hage : ageErrors data =
      if ageInvalid data.age then ["Age must be a positive number"] else [] := by
    unfold ageErrors
    simp [h1, h2]
  rw [hage]
  unfold ageInvalid
  cases hp : jsParseInt data.age with
  | none => simp
  | some m =>
    by_cases hm : m < 0 <;> simp [hm]

/-- Witness for C6 at age = -3. -/
theorem age_error_iff_parse_fails_or_negative_witness :
    "Age must be a positive number" ∈ (["Age must be a positive number"] : List String) :=
  (age_error_iff_parse_fails_or_negative ⟨JVal.undef, JVal.undef, JVal.num (-3), false⟩ false
    ["Age must be a positive number"] (by decide) (by decide) (by decide)).mpr
    (Or.inr ⟨-3, by decide, by decide⟩)

/-- A truthy non-string name makes the name check throw. -/
theorem nameCheck_error_of_truthyNonString (data : Payload) (r : Bool)
    (h : truthyNonString data.name = true) :
    nameCheck data r = .error "TypeError" := by
  unfold nameCheck
  cases hv : data.name <;> rw [hv] at h <;>
    simp_all [truthyNonString, jsTruthy, jsTrim]

/-- A truthy non-string email makes the email check throw. -/
theorem emailCheck_error_of_truthyNonString (data : Payload) (r : Bool)
    (h : truthyNonString data.email = true) :
    emailCheck data r = .error "TypeError" := by
  unfold emailCheck
  cases hv : data.email <;> rw [hv] at h <;>
    simp_all [truthyNonString, jsTruthy, jsTrim]

/-- Any name other than a truthy non-string lets the name check return. -/
theorem nameCheck_ok_of_not_truthyNonString (data : Payload) (r : Bool)
    (h : truthyNonString data.name = false) :
    ∃ n, nameCheck data r = .ok n := by
  unfold nameCheck
  cases hv : data.name <;> rw [hv] at h <;>
    simp only [truthyNonString] at h <;>
    simp [jsTruthy, jsTrim, h] <;> split_ifs <;> simp_all [jsTruthy]

/-- A truthy non-string name or email makes the whole validator throw. -/
theorem validate_error_of_truthyNonString (data : Payload) (r : Bool)
    (h : truthyNonString data.name = true ∨ truthyNonString data.email = true) :
    validateUserData data r = .error "TypeError" := by
  rw [validateUserData_eq_combined]
  unfold validateCombined
  by_cases hn : truthyNonString data.name = true
  · rw [nameCheck_error_of_truthyNonString data r hn]
  · have hn2 : truthyNonString data.name = false := by
      cases hB : truthyNonString data.name
      · rfl
      · exact absurd hB hn
    obtain ⟨n, hok⟩ := nameCheck_ok_of_not_truthyNonString data r hn2
    rw [hok]
    rw [emailCheck_error_of_truthyNonString data r (h.resolve_left hn)]

/-- A body carrying a truthy non-string name or email is not empty. -/
theorem hasKeys_of_truthyNonString (data : Payload)
    (h : truthyNonString data.name = true ∨ truthyNonString data.email = true) :
    data.hasKeys = true := by
  unfold Payload.hasKeys
  rcases h with h | h
  · cases hv : data.name <;> rw [hv] at h <;> simp_all [truthyNonString, jsTruthy]
  · cases hv : data.email <;> rw [hv] at h <;> simp_all [truthyNonString, jsTruthy]

/-- Claim C10, counterexample: a POST body whose name is the number 0 — a
non-null, non-string value — is answered with a 400 validation error (the
name is falsy, so requireAll reports it as required and trim is never
reached), not with the claimed 500. -/
theorem post_falsy_nonstring_name_validation_cex :
    postUsers [] ⟨JVal.num 0, JVal.str "a@b.c", JVal.undef, false⟩ "i" "t" =
      (⟨400, .errList ["Name is required"]⟩, []) := by decide

/-- Claim C10, amended: if a POST or PUT body carries a truthy non-null,
non-string name or email (for example a non-zero number), validation does
not return an error list — the handler throws calling trim — and the
request is answered 500 Internal server error with the store unchanged;
falsy non-string values such as the number 0 instead take the normal
validation path. -/
theorem truthy_nonstring_field_internal_error (store : Store) (data : Payload)
    (userId freshId now : String)
    (h : truthyNonString data.name = true ∨ truthyNonString data.email = true) :
    postUsers store data freshId now = (resp500, store) ∧
    (∀ u, findUser store userId = some u → putUser store userId data now = (resp500, store)) := by
  have hkeys := hasKeys_of_truthyNonString data h
  constructor
  · unfold postUsers
    rw [hkeys, validate_error_of_truthyNonString data true h]
    simp
  · intro u hu
    unfold putUser
    rw [hu, hkeys, validate_error_of_truthyNonString data false h]
    simp

/-- Witness for the amended C10 at name = 7 on a one-user store. -/
theorem truthy_nonstring_field_internal_error_witness :
    postUsers [("u1", userBo)] ⟨JVal.num 7, JVal.undef, JVal.undef, false⟩ "i" "t" =
      (resp500, [("u1", userBo)]) ∧
    putUser [("u1", userBo)] "u1" ⟨JVal.num 7, JVal.undef, JVal.undef, false⟩ "t" =
      (resp500, [("u1", userBo)]) := by
  have h := truthy_nonstring_field_internal_error [("u1", userBo)]
    ⟨JVal.num 7, JVal.undef, JVal.undef, false⟩ "u1" "i" "t" (Or.inl (by decide))
  exact ⟨h.1, h.2 userBo (by decide)⟩

/-- Claim C4: every request rejected with 400 (validation or empty body),
409 (duplicate email) or 404 (not found) leaves the store exactly as it
was: POST rejected with 400 or 409, PUT rejected with 400, 404 or 409, and
DELETE rejected with 404 all return the unchanged store, so no record is
inserted, removed or modified in any field. -/
theorem rejected_request_leaves_store_unchanged (store : Store) (data : Payload)
    (userId freshId now : String) :
    (((postUsers store data freshId now).1.status = 400 ∨
      (postUsers store data freshId now).1.status = 409) →
      (postUsers store data freshId now).2 = store) ∧
    (((putUser store userId data now).1.status = 400 ∨
      (putUser store userId data now).1.status = 404 ∨
      (putUser store userId data now).1.status = 409) →
      (putUser store userId data now).2 = store) ∧
    ((deleteUser store userId).1.status = 404 → (deleteUser store userId).2 = store) := by
  refine ⟨?_, ?_, ?_⟩
  · unfold postUsers
    split
    · intro _; rfl
    · split
      · intro _; rfl
      · split
        · intro _; rfl
        · split
          · intro _; rfl
          · intro h; rcases h with h | h <;> simp at h
  · unfold putUser
    split
    · intro _; rfl
    · split
      · intro _; rfl
      · split
        · intro _; rfl
        · split
          · intro _; rfl
          · split
            · intro _; rfl
            · intro h; rcases h with h | h | h <;> simp at h
  · unfold deleteUser
    split
    · intro _; rfl
    · intro h; simp at h

/-- Witness for C4: empty-body POST and PUT on an unknown id and DELETE on
an unknown id all leave the empty store empty. -/
theorem rejected_request_leaves_store_unchanged_witness :
    (postUsers [] ⟨JVal.undef, JVal.undef, JVal.undef, false⟩ "i" "t").2 = ([] : Store) ∧
    (putUser [] "u9" ⟨JVal.undef, JVal.undef, JVal.undef, false⟩ "t").2 = ([] : Store) ∧
    (deleteUser [] "u9").2 = ([] : Store) := by
  have h := rejected_request_leaves_store_unchanged []
    ⟨JVal.undef, JVal.undef, JVal.undef, false⟩ "u9" "i" "t"
  exact ⟨h.1 (Or.inl (by decide)), h.2.1 (Or.inr (Or.inl (by decide))), h.2.2 (by decide)⟩

/-- Replacing the entry at a present key makes lookup return the new
record. -/
theorem findUser_map_replace (store : Store) (userId : String) (x : User)
    (h : findUser store userId ≠ none) :
    findUser (store.map (fun p => if p.1 == userId then (p.1, x) else p)) userId = some x := by
  induction store with
  | nil => simp [findUser] at h
  | cons hd tl ih =>
    cases hk : (hd.1 == userId) with
    | true => simp [findUser, List.find?, hk]
    | false =>
      simp only [findUser, List.map_cons, List.find?, hk] at h ⊢
      simp only [Bool.false_eq_true, if_false] at h ⊢
      simp only [hk] at h ⊢
      exact ih h

/-- User.update with only an age writes the age and the timestamp and
nothing else. -/
theorem user_update_age_only (u : User) (now : String) :
    User.update u JVal.undef JVal.undef (JVal.num 5) now =
      { u with age := JVal.num 5, updated_at := now } := by
  simp [User.update]

/-- Claim C5: a PUT whose body supplies only age = 5 on a stored user is
answered 200 and afterwards that user has age 5 and the fresh updated_at,
while name, email, id and created_at are exactly as before — fields absent
from the body are untouched. -/
theorem put_age_only_frame (store : Store) (userId now : String) (u : User)
    (hfind : findUser store userId = some u) :
    (putUser store userId age5Payload now).1 =
      ⟨200, .user { u with age := JVal.num 5, updated_at := now }⟩ ∧
    findUser (putUser store userId age5Payload now).2 userId =
      some { u with age := JVal.num 5, updated_at := now } := by
  have hv : validateUserData age5Payload false = .ok [] := by decide
  have hput : putUser store userId age5Payload now =
      (⟨200, .user { u with age := JVal.num 5, updated_at := now }⟩,
        store.map (fun p => if p.1 == userId
          then (p.1, { u with age := JVal.num 5, updated_at := now }) else p)) := by
    unfold putUser
    rw [hfind]
    rw [hv]
    simp [age5Payload, Payload.hasKeys, jsTruthy, user_update_age_only]
  rw [hput]
  refine ⟨rfl, findUser_map_replace store userId _ ?_⟩
  rw [hfind]
  simp

/-- Witness for C5 on a one-user store. -/
theorem put_age_only_frame_witness :
    (putUser [("u1", userBo)] "u1" age5Payload "t1").1 =
      ⟨200, .user { userBo with age := JVal.num 5, updated_at := "t1" }⟩ ∧
    findUser (putUser [("u1", userBo)] "u1" age5Payload "t1").2 "u1" =
      some { userBo with age := JVal.num 5, updated_at := "t1" } :=
  put_age_only_frame [("u1", userBo)] "u1" "t1" userBo (by decide)

/-- Claim C7: POSTing name Ann, email ann at x.com and age 0 to any store
holding no user with that email succeeds with 201, the response body has
age 0 (zero passes validation, distinct from age absent), and the record is
appended to the store. -/
theorem post_age_zero_created (store : Store) (freshId now : String)
    (hemail : ∀ p ∈ store, p.2.email ≠ JVal.str "ann@x.com")
    (hid : ∀ p ∈ store, p.1 ≠ freshId) :
    postUsers store annPayload freshId now =
      (⟨201, .user ⟨freshId, JVal.str "Ann", JVal.str "ann@x.com", JVal.num 0, now, now⟩⟩,
        store ++ [(freshId, ⟨freshId, JVal.str "Ann", JVal.str "ann@x.com", JVal.num 0, now, now⟩)]) := by
  have hv : validateUserData annPayload true = .ok [] := by decide
  have hscan : store.any (fun p => p.2.email == JVal.str "ann@x.com") = false := by
    rw [Bool.eq_false_iff]
    intro hc
    rw [List.any_eq_true] at hc
    obtain ⟨p, hp, hpe⟩ := hc
    exact hemail p hp (by simpa using hpe)
  have hkeyscan : store.any (fun p => p.1 == freshId) = false := by
    rw [Bool.eq_false_iff]
    intro hc
    rw [List.any_eq_true] at hc
    obtain ⟨p, hp, hpe⟩ := hc
    exact hid p hp (by simpa using hpe)
  unfold postUsers
  rw [hv]
  simp [annPayload, Payload.hasKeys, hscan, objAssign, hkeyscan]

/-- Witness for C7 at the empty store. -/
theorem post_age_zero_created_witness :
    postUsers [] annPayload "id1" "t0" =
      (⟨201, .user ⟨"id1", JVal.str "Ann", JVal.str "ann@x.com", JVal.num 0, "t0", "t0"⟩⟩,
        [("id1", ⟨"id1", JVal.str "Ann", JVal.str "ann@x.com", JVal.num 0, "t0", "t0"⟩)]) :=
  post_age_zero_created [] "id1" "t0" (by simp) (by simp)

end LisaBackend
